import Mathlib

/-!
Shallow embedding of `src/modelCall.py` (repository GodOn514/LLMTools).

The module is a thin wrapper around a remote chat-completion client:
`load_config` reads a TOML document and extracts a per-service section,
`chat_openai` / `chat_deepseek` build a request dictionary, dispatch it,
and reshape the (possibly streamed) response.

Modelling choices:
* The TOML document and the remote responses are explicit parameters
  (the remote client is an oracle: a list of chunks for a streaming call,
  a single response object otherwise).
* Side effects are explicit: each call returns a `CallOutcome` recording
  the request dictionary dispatched to the remote client (if any), the
  sequence of console echoes (`print` calls), and the returned value or
  the Python exception raised.
* Python `dict` payloads (`api_params`, `**kwargs`) are association lists
  over string keys with the literal-then-splat override semantics of
  `{"model": ..., "messages": ..., "stream": ..., **kwargs}`.
-/

namespace LLMTools

/-- A role-tagged chat message, as synthesized at modelCall.py:72-75 and 153-156. -/
structure Message where
  role : String
  content : String
deriving Repr, DecidableEq

/-- The `delta` of a streamed chunk's first choice: an optional text fragment
and (DeepSeek only) an optional reasoning fragment; `none` models an absent
attribute (`hasattr` false / `None`). -/
structure Delta where
  content : Option String
  reasoning_content : Option String
deriving Repr, DecidableEq

/-- A streamed response chunk, reduced to its first choice's delta.  The
client library's chunk type carries `delta` as a required field, so the
source's `chunk.choices[0].delta is not None` test (modelCall.py:173) always
succeeds. -/
structure Chunk where
  delta : Delta
deriving Repr, DecidableEq

/-- The message of a non-streaming response's first choice.  `content` may be
`None`; `reasoning_content = none` models an absent attribute, read through
`getattr(..., 'reasoning_content', '')` at modelCall.py:203. -/
structure RespMessage where
  content : Option String
  reasoning_content : Option String
deriving Repr, DecidableEq

/-- A non-streaming response, reduced to its first choice's message. -/
structure Response where
  message : RespMessage
deriving Repr, DecidableEq

/-- Values stored in a Python dict payload sent to the remote client. -/
inductive PyVal where
  | str (s : String)
  | msgs (l : List Message)
  | bool (b : Bool)
  | pyNone
deriving Repr, DecidableEq

/-- `PyVal` of an optional string (`None` when absent). -/
def pyOfOpt : Option String → PyVal
  | some s => PyVal.str s
  | none => PyVal.pyNone

/-- A Python dict over string keys, as an insertion-ordered association list. -/
abbrev Dict := List (String × PyVal)

/-- Set a key in a dict: replace in place when present, append when new
(Python dict update semantics). -/
def dictSet : Dict → String → PyVal → Dict
  | [], k, v => [(k, v)]
  | (k', v') :: d, k, v =>
    if k' = k then (k', v) :: d else (k', v') :: dictSet d k v

/-- Lookup of a key in a dict. -/
def dictLookup : Dict → String → Option PyVal
  | [], _ => none
  | (k', v) :: d, k => if k' = k then some v else dictLookup d k

/-- `{**base, **kwargs}`: entries of `kwargs` override those of `base`. -/
def dictMerge (base kwargs : Dict) : Dict :=
  kwargs.foldl (fun d kv => dictSet d kv.1 kv.2) base

/-- Generic association-list lookup (used for the TOML document). -/
def alistLookup {β : Type} : List (String × β) → String → Option β
  | [], _ => none
  | (k', v) :: l, k => if k' = k then some v else alistLookup l k

/-- One TOML section: string keys to string values. -/
abbrev TomlSection := List (String × String)

/-- A parsed TOML configuration document: section name to section. -/
abbrev TomlDoc := List (String × TomlSection)

/-- The Python exceptions this module raises itself: `KeyError` from dict
subscription in `load_config`, `ValueError` from the invalid-mode guards. -/
inductive PyError where
  | keyError (key : String)
  | valueError (msg : String)
deriving Repr, DecidableEq

/-- A Python call outcome: a normal return or a raised exception. -/
inductive PyRes (α : Type) where
  | ok (a : α)
  | raise (e : PyError)
deriving Repr, DecidableEq

/-- The dict returned by `load_config` (modelCall.py:18-22). -/
structure ServiceConfig where
  api_key : String
  base_url : Option String
  model : Option String
deriving Repr, DecidableEq

/-- `load_config` (modelCall.py:5-22): select the named service section of the
TOML document (`cfg[service]`, `KeyError` when absent), read the required
`api_key` (`service_cfg["api_key"]`, `KeyError` when absent) and the optional
`base_url` and `model` (`service_cfg.get(...)`). -/
def load_config (doc : TomlDoc) (service : String) : PyRes ServiceConfig :=
  match alistLookup doc service with
  | none => PyRes.raise (PyError.keyError service)
  | some service_cfg =>
    match alistLookup service_cfg "api_key" with
    | none => PyRes.raise (PyError.keyError "api_key")
    | some key =>
      PyRes.ok
        { api_key := key
          base_url := alistLookup service_cfg "base_url"
          model := alistLookup service_cfg "model" }

/-- One console echo: a `print(s, end="", flush=True)` fragment, a whole-chunk
`print(chunk)`, or the bare `print()` newline. -/
inductive Echo where
  | str (s : String)
  | chunkEcho (c : Chunk)
  | newline
deriving Repr, DecidableEq

/-- The value returned by a chat call, covering every return shape of
`chat_openai` / `chat_deepseek`. -/
inductive ChatRet where
  | text (s : String)
  | msgContent (c : Option String)
  | chunks (l : List Chunk)
  | response (r : Response)
  | pair (c : String) (r : String)
  | pairOpt (c : Option String) (r : String)
deriving Repr, DecidableEq

/-- The observable outcome of one chat call: the request dispatched to the
remote client (none when the call failed before dispatch), the console
echoes in order, and the returned value or raised exception. -/
structure CallOutcome where
  request : Option Dict
  echoes : List Echo
  result : PyRes ChatRet
deriving Repr, DecidableEq

/-- Python string truthiness of an optional string: `None` and `""` are falsy. -/
def pyTruthy : Option String → Bool
  | some s => s != ""
  | none => false

/-- Python `a or b` on optional strings: `a` when truthy, else `b`. -/
def pyOr (a b : Option String) : Option String :=
  if pyTruthy a then a else b

/-- Loop body of the streaming text accumulation of `chat_openai`
(modelCall.py:98-102): when `chunk.choices[0].delta.content is not None`,
append it to `full_content` and echo it. -/
def openaiStreamTextStep (acc : String × List Echo) (c : Chunk) :
    String × List Echo :=
  match c.delta.content with
  | some s => (acc.1 ++ s, acc.2 ++ [Echo.str s])
  | none => acc

/-- Loop body of the streaming accumulation of `chat_deepseek`
(modelCall.py:181-188): a truthy `reasoning_content` is appended to the
reasoning accumulator and echoed with the `[推理] ` marker; otherwise a
truthy `content` is appended to the primary accumulator and echoed;
otherwise the chunk is skipped.  Accumulator: (full_content,
reasoning_content, echoes). -/
def dsStreamStep (acc : String × String × List Echo) (c : Chunk) :
    String × String × List Echo :=
  let delta := c.delta
  if pyTruthy delta.reasoning_content then
    (acc.1, acc.2.1 ++ delta.reasoning_content.getD "",
      acc.2.2 ++ [Echo.str ("[推理] " ++ delta.reasoning_content.getD "")])
  else if pyTruthy delta.content then
    (acc.1 ++ delta.content.getD "", acc.2.1,
      acc.2.2 ++ [Echo.str (delta.content.getD "")])
  else
    acc

/-- `chat_openai` (modelCall.py:49-116).  `doc` is the parsed configuration
file, `streamChunks` the chunks the remote client yields when `stream` is
true, `resp` the response it returns otherwise.  `create_openai_client`
(modelCall.py:24-34) only packages the credentials and is not otherwise
observable, so it is not modelled separately. -/
def chat_openai (doc : TomlDoc) (streamChunks : List Chunk) (resp : Response)
    (content : String) (system : String) (return_type : String)
    (stream : Bool) (kwargs : Dict) : CallOutcome :=
  match load_config doc "openai" with
  | PyRes.raise e => { request := none, echoes := [], result := PyRes.raise e }
  | PyRes.ok cfg =>
    let msgs : List Message :=
      [{ role := "system", content := system },
       { role := "user", content := content }]
    let api_params : Dict :=
      dictMerge
        [("model", pyOfOpt cfg.model), ("messages", PyVal.msgs msgs),
         ("stream", PyVal.bool stream)]
        kwargs
    if stream then
      -- the request is dispatched (modelCall.py:87) before return_type is examined
      if return_type = "json" then
        let chunk_list := streamChunks.filter (fun c => c.delta.content.isSome)
        { request := some api_params
          echoes := chunk_list.map Echo.chunkEcho
          result := PyRes.ok (ChatRet.chunks chunk_list) }
      else if return_type = "text" then
        let acc := streamChunks.foldl openaiStreamTextStep ("", [])
        { request := some api_params
          echoes := acc.2 ++ [Echo.newline]
          result := PyRes.ok (ChatRet.text acc.1) }
      else
        { request := some api_params
          echoes := []
          result := PyRes.raise (PyError.valueError "return_type 必须是 json 或 text") }
    else
      -- the request is dispatched (modelCall.py:109) before return_type is examined
      if return_type = "json" then
        { request := some api_params
          echoes := []
          result := PyRes.ok (ChatRet.response resp) }
      else if return_type = "text" then
        { request := some api_params
          echoes := []
          result := PyRes.ok (ChatRet.msgContent resp.message.content) }
      else
        { request := some api_params
          echoes := []
          result := PyRes.raise (PyError.valueError "return_type 必须是 json 或 text") }

/-- `chat_deepseek` (modelCall.py:118-206).  `model = none` and
`messages = none` model the Python `None` defaults; `model or cfg["model"]`
is `pyOr`.  In streaming json mode every chunk passes the
`chunk.choices[0].delta is not None` guard (the field is required on the
client's chunk type), so the whole stream is kept and echoed.  Every
non-json streaming mode runs the same accumulation loop and an invalid
`return_type` falls through to the plain-text return. -/
def chat_deepseek (doc : TomlDoc) (streamChunks : List Chunk) (resp : Response)
    (content : String) (system : String) (return_type : String)
    (stream : Bool) (model : Option String)
    (messages : Option (List Message)) (kwargs : Dict) : CallOutcome :=
  match load_config doc "deepseek" with
  | PyRes.raise e => { request := none, echoes := [], result := PyRes.raise e }
  | PyRes.ok cfg =>
    let msgs : List Message :=
      match messages with
      | none =>
        [{ role := "system", content := system },
         { role := "user", content := content }]
      | some m => m
    let api_params : Dict :=
      dictMerge
        [("model", pyOfOpt (pyOr model cfg.model)), ("messages", PyVal.msgs msgs),
         ("stream", PyVal.bool stream)]
        kwargs
    if stream then
      if return_type = "json" then
        let chunk_list := streamChunks
        { request := some api_params
          echoes := chunk_list.map Echo.chunkEcho
          result := PyRes.ok (ChatRet.chunks chunk_list) }
      else
        let acc := streamChunks.foldl dsStreamStep ("", "", [])
        if return_type = "both" then
          { request := some api_params
            echoes := acc.2.2 ++ [Echo.newline]
            result := PyRes.ok (ChatRet.pair acc.1 acc.2.1) }
        else
          { request := some api_params
            echoes := acc.2.2 ++ [Echo.newline]
            result := PyRes.ok (ChatRet.text acc.1) }
    else
      if return_type = "json" then
        { request := some api_params
          echoes := []
          result := PyRes.ok (ChatRet.response resp) }
      else if return_type = "both" then
        { request := some api_params
          echoes := []
          result := PyRes.ok (ChatRet.pairOpt resp.message.content
            (resp.message.reasoning_content.getD "")) }
      else
        { request := some api_params
          echoes := []
          result := PyRes.ok (ChatRet.msgContent resp.message.content) }

/-! ## Spec-level closed forms for the streaming folds -/

/-- Concatenation of a list of strings, in order. -/
def sconcat : List String → String
  | [] => ""
  | s :: l => s ++ sconcat l

/-- The content fragments of the chunks whose content is present (`is not
None`), in arrival order — what `chat_openai` accumulates and echoes in
streaming text mode. -/
def oaTextFragments (cs : List Chunk) : List String :=
  cs.filterMap (fun c => c.delta.content)

/-- The fragment a chunk contributes to `chat_deepseek`'s primary streaming
accumulator: its content when that is truthy and its reasoning fragment is
not, nothing otherwise. -/
def dsRoutePrimary (c : Chunk) : Option String :=
  if pyTruthy c.delta.reasoning_content then none
  else if pyTruthy c.delta.content then some (c.delta.content.getD "")
  else none

/-- The fragment a chunk contributes to `chat_deepseek`'s auxiliary
(reasoning) streaming accumulator: its reasoning fragment when truthy. -/
def dsRouteAux (c : Chunk) : Option String :=
  if pyTruthy c.delta.reasoning_content then some (c.delta.reasoning_content.getD "")
  else none

/-- The echo a chunk produces in `chat_deepseek`'s non-json streaming loop:
the marked reasoning fragment, else the content fragment, else nothing. -/
def dsEchoOf (c : Chunk) : Option Echo :=
  if pyTruthy c.delta.reasoning_content then
    some (Echo.str ("[推理] " ++ c.delta.reasoning_content.getD ""))
  else if pyTruthy c.delta.content then
    some (Echo.str (c.delta.content.getD ""))
  else none

/-! ## Helper lemmas -/

theorem oaFold_spec (cs : List Chunk) (fc : String) (es : List Echo) :
    cs.foldl openaiStreamTextStep (fc, es) =
      (fc ++ sconcat (oaTextFragments cs),
        es ++ (oaTextFragments cs).map Echo.str) := by
  induction cs generalizing fc es with
  | nil => simp [oaTextFragments, sconcat]
  | cons c cs ih =>
    cases hc : c.delta.content with
    | none =>
      simp only [List.foldl_cons, openaiStreamTextStep, hc, oaTextFragments,
        List.filterMap_cons_none]
      exact ih fc es
    | some s =>
      simp only [List.foldl_cons, openaiStreamTextStep, hc]
      rw [ih]
      simp [oaTextFragments, List.filterMap_cons, hc, sconcat,
        String.append_assoc, List.append_assoc]

theorem dsFold_spec (cs : List Chunk) (fc rc : String) (es : List Echo) :
    cs.foldl dsStreamStep (fc, rc, es) =
      (fc ++ sconcat (cs.filterMap dsRoutePrimary),
        rc ++ sconcat (cs.filterMap dsRouteAux),
        es ++ cs.filterMap dsEchoOf) := by
  induction cs generalizing fc rc es with
  | nil => simp [sconcat]
  | cons c cs ih =>
    by_cases hr : pyTruthy c.delta.reasoning_content
    · simp only [List.foldl_cons, dsStreamStep, hr, if_pos, List.filterMap_cons,
        dsRoutePrimary, dsRouteAux, dsEchoOf, if_true]
      rw [ih]
      simp [sconcat, String.append_assoc, List.append_assoc]
    · by_cases hc : pyTruthy c.delta.content
      · simp only [List.foldl_cons, dsStreamStep, hr, hc, if_false, if_true,
          List.filterMap_cons, dsRoutePrimary, dsRouteAux, dsEchoOf]
        rw [ih]
        simp [sconcat, String.append_assoc, List.append_assoc]
      · simp only [List.foldl_cons, dsStreamStep, hr, hc, if_false,
          List.filterMap_cons, dsRoutePrimary, dsRouteAux, dsEchoOf]
        rw [ih]
        simp

theorem dictLookup_dictSet (d : Dict) (k k' : String) (v : PyVal) :
    dictLookup (dictSet d k v) k' = if k' = k then some v else dictLookup d k' := by
  induction d with
  | nil =>
    simp only [dictSet, dictLookup]
    by_cases h : k' = k
    · subst h; simp
    · rw [if_neg (fun hh => h hh.symm), if_neg h]
  | cons kv d ih =>
    obtain ⟨k1, v1⟩ := kv
    by_cases h1 : k1 = k
    · simp only [dictSet, if_pos h1, dictLookup]
      by_cases h2 : k1 = k'
      · rw [if_pos h2, if_pos (h2.symm.trans h1)]
      · rw [if_neg h2, if_neg (fun hh => h2 (h1.trans hh.symm)), if_neg h2]
    · simp only [dictSet, if_neg h1, dictLookup, ih]
      by_cases h2 : k1 = k'
      · have h3 : ¬ k' = k := by rw [← h2]; exact h1
        rw [if_pos h2, if_neg h3, if_pos h2]
      · rw [if_neg h2, if_neg h2]

theorem dictLookup_eq_none_of_not_mem (d : Dict) (k : String)
    (h : k ∉ d.map Prod.fst) : dictLookup d k = none := by
  induction d with
  | nil => rfl
  | cons kv d ih =>
    simp only [List.map_cons, List.mem_cons] at h
    push_neg at h
    simpa [dictLookup, Ne.symm h.1] using ih h.2

theorem dictLookup_dictMerge_of_none (base kw : Dict) (k : String)
    (h : dictLookup kw k = none) :
    dictLookup (dictMerge base kw) k = dictLookup base k := by
  induction kw generalizing base with
  | nil => rfl
  | cons kv kw ih =>
    obtain ⟨k1, v1⟩ := kv
    simp only [dictLookup] at h
    by_cases h1 : k1 = k
    · simp [h1] at h
    · simp only [h1, if_false] at h
      show dictLookup (dictMerge (dictSet base k1 v1) kw) k = _
      rw [ih _ h, dictLookup_dictSet, if_neg (Ne.symm h1)]

theorem dictLookup_dictMerge_of_some (base kw : Dict) (k : String) (v : PyVal)
    (hnd : (kw.map Prod.fst).Nodup) (h : dictLookup kw k = some v) :
    dictLookup (dictMerge base kw) k = some v := by
  induction kw generalizing base with
  | nil => simp [dictLookup] at h
  | cons kv kw ih =>
    obtain ⟨k1, v1⟩ := kv
    simp only [List.map_cons, List.nodup_cons] at hnd
    simp only [dictLookup] at h
    by_cases h1 : k1 = k
    · subst h1
      simp only [if_true] at h
      show dictLookup (dictMerge (dictSet base k1 v1) kw) k1 = _
      rw [dictLookup_dictMerge_of_none _ _ _ (dictLookup_eq_none_of_not_mem _ _ hnd.1),
        dictLookup_dictSet, if_pos rfl, h]
    · simp only [h1, if_false] at h
      exact ih _ hnd.2 h

/-- The base dict of `api_params` in `chat_openai` (modelCall.py:78-83). -/
def openaiBaseParams (cfg : ServiceConfig) (content system : String)
    (stream : Bool) : Dict :=
  [("model", pyOfOpt cfg.model),
   ("messages", PyVal.msgs
      [{ role := "system", content := system },
       { role := "user", content := content }]),
   ("stream", PyVal.bool stream)]

/-- The base dict of `api_params` in `chat_deepseek` (modelCall.py:159-164). -/
def deepseekBaseParams (cfg : ServiceConfig) (content system : String)
    (stream : Bool) (model : Option String)
    (messages : Option (List Message)) : Dict :=
  [("model", pyOfOpt (pyOr model cfg.model)),
   ("messages", PyVal.msgs
      (match messages with
       | none =>
         [{ role := "system", content := system },
          { role := "user", content := content }]
       | some m => m)),
   ("stream", PyVal.bool stream)]

/-- Whenever configuration loading succeeds, `chat_openai` dispatches exactly
the merged `api_params` dict, whatever the mode. -/
theorem chat_openai_request (doc : TomlDoc) (cfg : ServiceConfig)
    (h : load_config doc "openai" = PyRes.ok cfg)
    (streamChunks : List Chunk) (resp : Response) (content system rt : String)
    (stream : Bool) (kwargs : Dict) :
    (chat_openai doc streamChunks resp content system rt stream kwargs).request
      = some (dictMerge (openaiBaseParams cfg content system stream) kwargs) := by
  unfold chat_openai
  rw [h]
  by_cases hs : stream <;> by_cases h1 : rt = "json" <;> by_cases h2 : rt = "text" <;>
    simp [hs, h1, h2, openaiBaseParams]

/-- Whenever configuration loading succeeds, `chat_deepseek` dispatches
exactly the merged `api_params` dict, whatever the mode. -/
theorem chat_deepseek_request (doc : TomlDoc) (cfg : ServiceConfig)
    (h : load_config doc "deepseek" = PyRes.ok cfg)
    (streamChunks : List Chunk) (resp : Response) (content system rt : String)
    (stream : Bool) (model : Option String)
    (messages : Option (List Message)) (kwargs : Dict) :
    (chat_deepseek doc streamChunks resp content system rt stream model
        messages kwargs).request
      = some (dictMerge
          (deepseekBaseParams cfg content system stream model messages) kwargs) := by
  unfold chat_deepseek
  rw [h]
  by_cases hs : stream <;> by_cases h1 : rt = "json" <;> by_cases h2 : rt = "both" <;>
    simp [hs, h1, h2, deepseekBaseParams]

/-! ## Concrete fixtures for witnesses and counterexamples -/

/-- A configuration document with a valid `openai` section. -/
def docO : TomlDoc :=
  [("openai", [("api_key", "sk-test"), ("model", "gpt-x")])]

/-- A configuration document with a valid `deepseek` section. -/
def docD : TomlDoc :=
  [("deepseek", [("api_key", "sk-test2"), ("model", "deepseek-chat")])]

/-- The config `load_config docO "openai"` yields. -/
def cfgO : ServiceConfig :=
  { api_key := "sk-test", base_url := none, model := some "gpt-x" }

/-- The config `load_config docD "deepseek"` yields. -/
def cfgD : ServiceConfig :=
  { api_key := "sk-test2", base_url := none, model := some "deepseek-chat" }

/-- A plain non-streaming response with content "hello". -/
def resp0 : Response := { message := { content := some "hello", reasoning_content := none } }

/-- A streamed chunk carrying the fragment "he". -/
def chHe : Chunk := { delta := { content := some "he", reasoning_content := none } }

/-- A streamed chunk carrying the fragment "llo". -/
def chLlo : Chunk := { delta := { content := some "llo", reasoning_content := none } }

/-- A streamed chunk carrying both a content and a reasoning fragment. -/
def chMixed : Chunk := { delta := { content := some "x", reasoning_content := some "r" } }

/-- A streamed chunk whose content is present but empty. -/
def chEmpty : Chunk := { delta := { content := some "", reasoning_content := none } }

/-- A streamed chunk carrying only a reasoning fragment. -/
def chReason : Chunk := { delta := { content := none, reasoning_content := some "r" } }

/-- The value the dispatched request carries for a key (none when no request
was dispatched). -/
def sentField (o : CallOutcome) (k : String) : Option PyVal :=
  match o.request with
  | some d => dictLookup d k
  | none => none

/-! ## Claims -/

/-- C1 (counterexample): the claim predicts that a streaming text-mode call of
`chat_deepseek` on the single chunk with content "x" and reasoning fragment
"r" returns "x" (the content is present) and echoes "x" then a newline; the
code routes the whole chunk to the reasoning channel (the `elif` at
modelCall.py:186 is not reached), returns "" and echoes the marked reasoning
fragment instead. -/
theorem c1_counterexample :
    (chat_deepseek docD [chMixed] resp0 "q" "s" "text" true none none []).result
        = PyRes.ok (ChatRet.text "") ∧
      (chat_deepseek docD [chMixed] resp0 "q" "s" "text" true none none []).echoes
        = [Echo.str "[推理] r", Echo.newline] ∧
      ChatRet.text "" ≠ ChatRet.text "x" ∧
      chMixed.delta.content = some "x" := by decide

/-- C1 (amended): streaming text-mode.  For `chat_openai` the claim holds as
stated: the return value is the concatenation, in arrival order, of the
content fragments of all chunks whose content is present, and the echoes are
exactly those fragments followed by a newline.  For `chat_deepseek`, a chunk
whose reasoning fragment is non-empty is routed entirely to the reasoning
channel (echoed with the `[推理] ` marker, its content dropped), and of the
remaining chunks only non-empty content fragments are accumulated and
echoed; the return value concatenates the routed primary fragments in
arrival order and the echoes are the routed fragments followed by a
newline. -/
theorem c1_stream_text_concat (docO1 docD1 : TomlDoc) (cfg1 cfg2 : ServiceConfig)
    (hO : load_config docO1 "openai" = PyRes.ok cfg1)
    (hD : load_config docD1 "deepseek" = PyRes.ok cfg2)
    (cs : List Chunk) (resp : Response) (content system : String)
    (model : Option String) (messages : Option (List Message)) (kwargs : Dict) :
    ((chat_openai docO1 cs resp content system "text" true kwargs).result
        = PyRes.ok (ChatRet.text (sconcat (oaTextFragments cs))) ∧
      (chat_openai docO1 cs resp content system "text" true kwargs).echoes
        = (oaTextFragments cs).map Echo.str ++ [Echo.newline]) ∧
    ((chat_deepseek docD1 cs resp content system "text" true model messages kwargs).result
        = PyRes.ok (ChatRet.text (sconcat (cs.filterMap dsRoutePrimary))) ∧
      (chat_deepseek docD1 cs resp content system "text" true model messages kwargs).echoes
        = cs.filterMap dsEchoOf ++ [Echo.newline]) := by
  constructor
  · unfold chat_openai
    rw [hO]
    simp [oaFold_spec, String.empty_append]
  · unfold chat_deepseek
    rw [hD]
    simp [dsFold_spec, String.empty_append]

/-- C1 (witness): the amended theorem at the spec's own example, the chunks
"he", "llo" against the concrete fixture configurations. -/
theorem c1_stream_text_concat_witness :
    ((chat_openai docO [chHe, chLlo] resp0 "q" "s" "text" true []).result
        = PyRes.ok (ChatRet.text (sconcat (oaTextFragments [chHe, chLlo]))) ∧
      (chat_openai docO [chHe, chLlo] resp0 "q" "s" "text" true []).echoes
        = (oaTextFragments [chHe, chLlo]).map Echo.str ++ [Echo.newline]) ∧
    (((chat_deepseek docD [chHe, chLlo] resp0 "q" "s" "text" true none none []).result
        = PyRes.ok (ChatRet.text (sconcat ([chHe, chLlo].filterMap dsRoutePrimary))) ∧
      (chat_deepseek docD [chHe, chLlo] resp0 "q" "s" "text" true none none []).echoes
        = [chHe, chLlo].filterMap dsEchoOf ++ [Echo.newline])) :=
  c1_stream_text_concat docO docD cfgO cfgD (by decide) (by decide)
    [chHe, chLlo] resp0 "q" "s" none none []

/-- C2: supplying an explicit (non-None) message history to `chat_deepseek`
suppresses the system/user synthesis and the `messages` entry of the
dispatched request is the supplied history verbatim.  `messages` is a named
parameter of the function, so a Python call can never also place a
"messages" key among `**kwargs`; the hypothesis `hkw` records this. -/
theorem c2_history_verbatim (doc : TomlDoc) (cfg : ServiceConfig)
    (h : load_config doc "deepseek" = PyRes.ok cfg)
    (cs : List Chunk) (resp : Response) (content system rt : String) (stream : Bool)
    (model : Option String) (hist : List Message) (kwargs : Dict)
    (hkw : dictLookup kwargs "messages" = none) :
    sentField (chat_deepseek doc cs resp content system rt stream model
        (some hist) kwargs) "messages" = some (PyVal.msgs hist) := by
  unfold sentField
  rw [chat_deepseek_request doc cfg h cs resp content system rt stream model
    (some hist) kwargs]
  show dictLookup (dictMerge
      (deepseekBaseParams cfg content system stream model (some hist)) kwargs)
      "messages" = some (PyVal.msgs hist)
  rw [dictLookup_dictMerge_of_none _ _ _ hkw]
  simp [deepseekBaseParams, dictLookup]

/-- C2 (witness): a concrete three-message history is sent verbatim. -/
theorem c2_history_verbatim_witness :
    sentField (chat_deepseek docD [] resp0 "q" "s" "text" false none
        (some [{ role := "system", content := "be brief" },
               { role := "user", content := "hi" },
               { role := "assistant", content := "hello" }]) []) "messages"
      = some (PyVal.msgs
          [{ role := "system", content := "be brief" },
           { role := "user", content := "hi" },
           { role := "assistant", content := "hello" }]) :=
  c2_history_verbatim docD cfgD (by decide) [] resp0 "q" "s" "text" false none
    [{ role := "system", content := "be brief" },
     { role := "user", content := "hi" },
     { role := "assistant", content := "hello" }] [] (by decide)

/-- C3: an invalid output-mode passed to `chat_openai` raises a `ValueError`
on both the streaming (modelCall.py:106) and the non-streaming
(modelCall.py:116) path; on the non-streaming path the complete observable
outcome is the single request already dispatched at modelCall.py:109, no
console echo, and the error — no further remote side effect. -/
theorem c3_invalid_mode (doc : TomlDoc) (cfg : ServiceConfig)
    (h : load_config doc "openai" = PyRes.ok cfg)
    (cs : List Chunk) (resp : Response) (content system rt : String) (kwargs : Dict)
    (h1 : rt ≠ "json") (h2 : rt ≠ "text") :
    (chat_openai doc cs resp content system rt true kwargs).result
        = PyRes.raise (PyError.valueError "return_type 必须是 json 或 text") ∧
    chat_openai doc cs resp content system rt false kwargs
        = { request := some (dictMerge (openaiBaseParams cfg content system false) kwargs)
            echoes := []
            result := PyRes.raise (PyError.valueError "return_type 必须是 json 或 text") } := by
  constructor
  · unfold chat_openai
    rw [h]
    simp [h1, h2]
  · unfold chat_openai
    rw [h]
    simp [h1, h2, openaiBaseParams]

/-- C3 (witness): the invalid mode "xml" at the concrete fixture
configuration. -/
theorem c3_invalid_mode_witness :
    (chat_openai docO [] resp0 "q" "s" "xml" true []).result
        = PyRes.raise (PyError.valueError "return_type 必须是 json 或 text") ∧
    chat_openai docO [] resp0 "q" "s" "xml" false []
        = { request := some (dictMerge (openaiBaseParams cfgO "q" "s" false) [])
            echoes := []
            result := PyRes.raise (PyError.valueError "return_type 必须是 json 或 text") } :=
  c3_invalid_mode docO cfgO (by decide) [] resp0 "q" "s" "xml" []
    (by decide) (by decide)

/-- C4 (counterexample): the claim predicts that dual-channel streaming on
the single chunk carrying content "x" and reasoning "r" returns the pair
("x", "r"); the `elif` at modelCall.py:186 drops the content of a chunk
whose reasoning fragment is truthy, so the code returns ("", "r"). -/
theorem c4_counterexample :
    (chat_deepseek docD [chMixed] resp0 "q" "s" "both" true none none []).result
        = PyRes.ok (ChatRet.pair "" "r") ∧
      ChatRet.pair "" "r" ≠ ChatRet.pair "x" "r" ∧
      chMixed.delta.content = some "x" ∧
      chMixed.delta.reasoning_content = some "r" := by decide

/-- C4 (amended): dual-channel streaming of `chat_deepseek`.  A chunk whose
reasoning fragment is non-empty contributes that fragment to the auxiliary
accumulator only (its content, if any, is dropped); every other chunk
contributes its content to the primary accumulator exactly when that content
is non-empty.  The returned pair is (concatenated primary contributions,
concatenated auxiliary contributions), each in arrival order; the two
accumulators never receive fragments of the other channel. -/
theorem c4_stream_both (doc : TomlDoc) (cfg : ServiceConfig)
    (h : load_config doc "deepseek" = PyRes.ok cfg)
    (cs : List Chunk) (resp : Response) (content system : String)
    (model : Option String) (messages : Option (List Message)) (kwargs : Dict) :
    (chat_deepseek doc cs resp content system "both" true model messages kwargs).result
      = PyRes.ok (ChatRet.pair (sconcat (cs.filterMap dsRoutePrimary))
          (sconcat (cs.filterMap dsRouteAux))) := by
  unfold chat_deepseek
  rw [h]
  simp [dsFold_spec, String.empty_append]

/-- C4 (witness): a reasoning chunk, a text chunk and a mixed chunk split
into ("llo", "rr") as routed. -/
theorem c4_stream_both_witness :
    (chat_deepseek docD [chReason, chLlo, chMixed] resp0 "q" "s" "both" true
        none none []).result
      = PyRes.ok (ChatRet.pair
          (sconcat ([chReason, chLlo, chMixed].filterMap dsRoutePrimary))
          (sconcat ([chReason, chLlo, chMixed].filterMap dsRouteAux))) :=
  c4_stream_both docD cfgD (by decide) [chReason, chLlo, chMixed] resp0 "q" "s"
    none none []

/-- C5 (counterexample): the claim predicts the streaming raw-mode list keeps
exactly the chunks with non-empty content.  `chat_openai` keeps a chunk
whose content is the empty string (the guard at modelCall.py:92 only tests
`is not None`), and `chat_deepseek` keeps a chunk with no content at all
(the guard at modelCall.py:173 tests the delta, not its content). -/
theorem c5_counterexample :
    ((chat_openai docO [chEmpty] resp0 "q" "s" "json" true []).result
        = PyRes.ok (ChatRet.chunks [chEmpty]) ∧
      chEmpty.delta.content = some "") ∧
    ((chat_deepseek docD [chReason] resp0 "q" "s" "json" true none none []).result
        = PyRes.ok (ChatRet.chunks [chReason]) ∧
      chReason.delta.content = none) := by decide

/-- C5 (amended): streaming raw ("json") mode.  `chat_openai` returns, in
arrival order, exactly the chunks whose content is present (non-None, empty
string included), echoing each kept chunk as it arrives; `chat_deepseek`
returns every chunk of the stream (its delta-presence guard always holds),
echoing each one as it arrives. -/
theorem c5_stream_json (docO1 docD1 : TomlDoc) (cfg1 cfg2 : ServiceConfig)
    (hO : load_config docO1 "openai" = PyRes.ok cfg1)
    (hD : load_config docD1 "deepseek" = PyRes.ok cfg2)
    (cs : List Chunk) (resp : Response) (content system : String)
    (model : Option String) (messages : Option (List Message)) (kwargs : Dict) :
    ((chat_openai docO1 cs resp content system "json" true kwargs).result
        = PyRes.ok (ChatRet.chunks (cs.filter (fun c => c.delta.content.isSome))) ∧
      (chat_openai docO1 cs resp content system "json" true kwargs).echoes
        = (cs.filter (fun c => c.delta.content.isSome)).map Echo.chunkEcho) ∧
    ((chat_deepseek docD1 cs resp content system "json" true model messages kwargs).result
        = PyRes.ok (ChatRet.chunks cs) ∧
      (chat_deepseek docD1 cs resp content system "json" true model messages kwargs).echoes
        = cs.map Echo.chunkEcho) := by
  constructor
  · unfold chat_openai
    rw [hO]
    simp
  · unfold chat_deepseek
    rw [hD]
    simp

/-- C5 (witness): a mixed stream of four chunks at the fixture
configurations. -/
theorem c5_stream_json_witness :
    ((chat_openai docO [chHe, chEmpty, chReason, chLlo] resp0 "q" "s" "json" true []).result
        = PyRes.ok (ChatRet.chunks
            ([chHe, chEmpty, chReason, chLlo].filter (fun c => c.delta.content.isSome))) ∧
      (chat_openai docO [chHe, chEmpty, chReason, chLlo] resp0 "q" "s" "json" true []).echoes
        = ([chHe, chEmpty, chReason, chLlo].filter
            (fun c => c.delta.content.isSome)).map Echo.chunkEcho) ∧
    ((chat_deepseek docD [chHe, chEmpty, chReason, chLlo] resp0 "q" "s" "json" true
        none none []).result
        = PyRes.ok (ChatRet.chunks [chHe, chEmpty, chReason, chLlo]) ∧
      (chat_deepseek docD [chHe, chEmpty, chReason, chLlo] resp0 "q" "s" "json" true
        none none []).echoes
        = [chHe, chEmpty, chReason, chLlo].map Echo.chunkEcho) :=
  c5_stream_json docO docD cfgO cfgD (by decide) (by decide)
    [chHe, chEmpty, chReason, chLlo] resp0 "q" "s" none none []

/-- C6 (counterexample): the claim predicts that every explicit (non-None)
model override ends up in the request, but `model or cfg["model"]`
(modelCall.py:160) falls back to the configured default whenever the
override is falsy: supplying the explicit override "" sends the configured
"deepseek-chat" instead. -/
theorem c6_counterexample :
    (chat_deepseek docD [] resp0 "q" "s" "text" false (some "") none []).request
        = some [("model", PyVal.str "deepseek-chat"),
                ("messages", PyVal.msgs [{ role := "system", content := "s" },
                                         { role := "user", content := "q" }]),
                ("stream", PyVal.bool false)] ∧
      PyVal.str "deepseek-chat" ≠ PyVal.str "" := by decide

/-- C6 (amended): a model override that is a non-empty string takes
precedence over the configured default in the dispatched request; a None or
empty-string override yields the configured default (verbatim, None
included).  `model` is a named parameter of `chat_deepseek`, so a Python
call can never also place a "model" key among `**kwargs`; the hypothesis
`hkw` records this. -/
theorem c6_model_override (doc : TomlDoc) (cfg : ServiceConfig)
    (h : load_config doc "deepseek" = PyRes.ok cfg)
    (cs : List Chunk) (resp : Response) (content system rt : String) (stream : Bool)
    (messages : Option (List Message)) (kwargs : Dict)
    (hkw : dictLookup kwargs "model" = none) (m : Option String) (s : String) :
    (m = some s → s ≠ "" →
      sentField (chat_deepseek doc cs resp content system rt stream m messages kwargs)
        "model" = some (PyVal.str s)) ∧
    (m = none ∨ m = some "" →
      sentField (chat_deepseek doc cs resp content system rt stream m messages kwargs)
        "model" = some (pyOfOpt cfg.model)) := by
  have hbase : sentField
      (chat_deepseek doc cs resp content system rt stream m messages kwargs) "model"
      = some (pyOfOpt (pyOr m cfg.model)) := by
    unfold sentField
    rw [chat_deepseek_request doc cfg h cs resp content system rt stream m
      messages kwargs]
    show dictLookup (dictMerge
        (deepseekBaseParams cfg content system stream m messages) kwargs)
        "model" = some (pyOfOpt (pyOr m cfg.model))
    rw [dictLookup_dictMerge_of_none _ _ _ hkw]
    simp [deepseekBaseParams, dictLookup]
  constructor
  · intro hm hs
    rw [hbase, hm]
    simp [pyOr, pyTruthy, pyOfOpt, hs]
  · intro hm
    rw [hbase]
    rcases hm with hm | hm <;> rw [hm] <;> simp [pyOr, pyTruthy]

/-- C6 (witness): the non-empty override "deepseek-reasoner" wins over the
configured "deepseek-chat" at the concrete fixture configuration. -/
theorem c6_model_override_witness :
    sentField (chat_deepseek docD [] resp0 "q" "s" "text" false
        (some "deepseek-reasoner") none []) "model"
      = some (PyVal.str "deepseek-reasoner") :=
  (c6_model_override docD cfgD (by decide) [] resp0 "q" "s" "text" false none []
      (by decide) (some "deepseek-reasoner") "deepseek-reasoner").1 rfl (by decide)

/-- C7: a configuration document whose requested service section is absent
makes `load_config` raise `KeyError(service)`, and one whose section lacks
the `api_key` key makes it raise `KeyError("api_key")` (modelCall.py:15-19);
when loading fails, both chat functions return that error with no request
dispatched and no echo — the failure precedes any remote call, whatever the
remote would have answered. -/
theorem c7_config_error (doc : TomlDoc) (service : String) :
    (alistLookup doc service = none →
      load_config doc service = PyRes.raise (PyError.keyError service)) ∧
    (∀ sec, alistLookup doc service = some sec → alistLookup sec "api_key" = none →
      load_config doc service = PyRes.raise (PyError.keyError "api_key")) ∧
    (∀ e, load_config doc "openai" = PyRes.raise e →
      ∀ cs resp content system rt stream kwargs,
        chat_openai doc cs resp content system rt stream kwargs
          = { request := none, echoes := [], result := PyRes.raise e }) ∧
    (∀ e, load_config doc "deepseek" = PyRes.raise e →
      ∀ cs resp content system rt stream model messages kwargs,
        chat_deepseek doc cs resp content system rt stream model messages kwargs
          = { request := none, echoes := [], result := PyRes.raise e }) := by
  refine ⟨fun hs => ?_, fun sec hs hk => ?_, fun e he => ?_, fun e he => ?_⟩
  · unfold load_config
    rw [hs]
  · unfold load_config
    rw [hs]
    simp [hk]
  · intro cs resp content system rt stream kwargs
    unfold chat_openai
    rw [he]
  · intro cs resp content system rt stream model messages kwargs
    unfold chat_deepseek
    rw [he]

/-- C7 (witness): a document holding only a keyless `deepseek` section: the
`openai` section is absent (`KeyError "openai"`) and `chat_deepseek` stops on
the missing access key before dispatching anything. -/
theorem c7_config_error_witness :
    chat_openai [("deepseek", [("model", "deepseek-chat")])] [chHe] resp0
        "q" "s" "text" true []
      = { request := none, echoes := []
          result := PyRes.raise (PyError.keyError "openai") } ∧
    chat_deepseek [("deepseek", [("model", "deepseek-chat")])] [chHe] resp0
        "q" "s" "text" true none none []
      = { request := none, echoes := []
          result := PyRes.raise (PyError.keyError "api_key") } :=
  ⟨(c7_config_error [("deepseek", [("model", "deepseek-chat")])] "openai").2.2.1
      (PyError.keyError "openai") (by decide) [chHe] resp0 "q" "s" "text" true [],
    (c7_config_error [("deepseek", [("model", "deepseek-chat")])] "deepseek").2.2.2
      (PyError.keyError "api_key") (by decide) [chHe] resp0 "q" "s" "text" true
      none none []⟩

/-- C8: a non-streaming dual-channel ("both") call of `chat_deepseek`
returns the pair of the response message's content and its reasoning field,
the latter read through `getattr(..., 'reasoning_content', '')`
(modelCall.py:201-204): an absent reasoning field yields the empty string. -/
theorem c8_nonstream_both (doc : TomlDoc) (cfg : ServiceConfig)
    (h : load_config doc "deepseek" = PyRes.ok cfg)
    (cs : List Chunk) (resp : Response) (content system : String)
    (model : Option String) (messages : Option (List Message)) (kwargs : Dict) :
    (chat_deepseek doc cs resp content system "both" false model messages kwargs).result
        = PyRes.ok (ChatRet.pairOpt resp.message.content
            (resp.message.reasoning_content.getD "")) ∧
    (resp.message.reasoning_content = none →
      (chat_deepseek doc cs resp content system "both" false model messages kwargs).result
        = PyRes.ok (ChatRet.pairOpt resp.message.content "")) := by
  have hres : (chat_deepseek doc cs resp content system "both" false model
      messages kwargs).result
      = PyRes.ok (ChatRet.pairOpt resp.message.content
          (resp.message.reasoning_content.getD "")) := by
    unfold chat_deepseek
    rw [h]
    simp
  exact ⟨hres, fun hr => by rw [hres, hr]; rfl⟩

/-- C8 (witness): the fixture response carries content "hello" and no
reasoning field, so the pair is (some "hello", ""). -/
theorem c8_nonstream_both_witness :
    (chat_deepseek docD [] resp0 "q" "s" "both" false none none []).result
        = PyRes.ok (ChatRet.pairOpt resp0.message.content
            (resp0.message.reasoning_content.getD "")) ∧
    (resp0.message.reasoning_content = none →
      (chat_deepseek docD [] resp0 "q" "s" "both" false none none []).result
        = PyRes.ok (ChatRet.pairOpt resp0.message.content "")) :=
  c8_nonstream_both docD cfgD (by decide) [] resp0 "q" "s" none none []

/-- C9: the passthrough `**kwargs` dict is merged last into `api_params`
(modelCall.py:78-83, 159-164), so a passthrough entry named "model",
"messages" or "stream" silently replaces the wrapper-computed value of that
field in the dispatched request, for `chat_openai` (which offers no model
parameter of its own) as well as `chat_deepseek`.  The Nodup hypothesis
records that a Python dict has no duplicate keys. -/
theorem c9_kwargs_override (docO1 docD1 : TomlDoc) (cfg1 cfg2 : ServiceConfig)
    (hO : load_config docO1 "openai" = PyRes.ok cfg1)
    (hD : load_config docD1 "deepseek" = PyRes.ok cfg2)
    (k : String) (hk : k = "model" ∨ k = "messages" ∨ k = "stream") (v : PyVal)
    (kwargs : Dict) (hnd : (kwargs.map Prod.fst).Nodup)
    (hv : dictLookup kwargs k = some v)
    (cs : List Chunk) (resp : Response) (content system rt : String) (stream : Bool)
    (model : Option String) (messages : Option (List Message)) :
    sentField (chat_openai docO1 cs resp content system rt stream kwargs) k
        = some v ∧
    sentField (chat_deepseek docD1 cs resp content system rt stream model
        messages kwargs) k = some v := by
  constructor
  · unfold sentField
    rw [chat_openai_request docO1 cfg1 hO cs resp content system rt stream kwargs]
    show dictLookup (dictMerge (openaiBaseParams cfg1 content system stream) kwargs) k
      = some v
    exact dictLookup_dictMerge_of_some _ _ _ _ hnd hv
  · unfold sentField
    rw [chat_deepseek_request docD1 cfg2 hD cs resp content system rt stream model
      messages kwargs]
    show dictLookup (dictMerge
        (deepseekBaseParams cfg2 content system stream model messages) kwargs) k
      = some v
    exact dictLookup_dictMerge_of_some _ _ _ _ hnd hv

/-- C9 (witness): the passthrough entry `model = "gpt-override"` replaces the
configured "gpt-x" / "deepseek-chat" in both requests. -/
theorem c9_kwargs_override_witness :
    sentField (chat_openai docO [] resp0 "q" "s" "text" false
        [("model", PyVal.str "gpt-override")]) "model"
      = some (PyVal.str "gpt-override") ∧
    sentField (chat_deepseek docD [] resp0 "q" "s" "text" false none none
        [("model", PyVal.str "gpt-override")]) "model"
      = some (PyVal.str "gpt-override") :=
  c9_kwargs_override docO docD cfgO cfgD (by decide) (by decide) "model"
    (Or.inl rfl) (PyVal.str "gpt-override") [("model", PyVal.str "gpt-override")]
    (by decide) (by decide) [] resp0 "q" "s" "text" false none none

/-- C10: for any output-mode other than "json" and "both" — the valid "text"
as well as any invalid string — `chat_deepseek` raises no invalid-argument
error: the streaming path falls through to the text accumulation loop and
returns the concatenated primary content (modelCall.py:177-194), and the
non-streaming path falls through to returning the message content
(modelCall.py:205-206). -/
theorem c10_fallthrough (doc : TomlDoc) (cfg : ServiceConfig)
    (h : load_config doc "deepseek" = PyRes.ok cfg)
    (rt : String) (h1 : rt ≠ "json") (h2 : rt ≠ "both")
    (cs : List Chunk) (resp : Response) (content system : String)
    (model : Option String) (messages : Option (List Message)) (kwargs : Dict) :
    (chat_deepseek doc cs resp content system rt true model messages kwargs).result
        = PyRes.ok (ChatRet.text (sconcat (cs.filterMap dsRoutePrimary))) ∧
    (chat_deepseek doc cs resp content system rt false model messages kwargs).result
        = PyRes.ok (ChatRet.msgContent resp.message.content) := by
  constructor
  · unfold chat_deepseek
    rw [h]
    simp [h1, h2, dsFold_spec, String.empty_append]
  · unfold chat_deepseek
    rw [h]
    simp [h1, h2]

/-- C10 (witness): the invalid mode "markdown" on a two-chunk stream returns
the concatenated text, and non-streaming returns the message content. -/
theorem c10_fallthrough_witness :
    (chat_deepseek docD [chHe, chLlo] resp0 "q" "s" "markdown" true none none []).result
        = PyRes.ok (ChatRet.text (sconcat ([chHe, chLlo].filterMap dsRoutePrimary))) ∧
    (chat_deepseek docD [chHe, chLlo] resp0 "q" "s" "markdown" false none none []).result
        = PyRes.ok (ChatRet.msgContent resp0.message.content) :=
  c10_fallthrough docD cfgD (by decide) "markdown" (by decide) (by decide)
    [chHe, chLlo] resp0 "q" "s" none none []

end LLMTools
